import Mathlib

/-!
Shallow embedding of the concurrent URL availability checker of the
`sitemap` repository (class `URLChecker` in `src/utils.js`), together with
proofs about its classification, retry, chunking and reporting behaviour.

Modelling conventions:
- JS arrays are `List`s; JS objects are Lean structures.
- A JS field that some code paths leave absent (`undefined`) is an `Option`.
- The `status` field of a check outcome is a JS value that is either an
  HTTP status number or one of the string sentinels `TIMEOUT` / `ERROR`;
  it is modelled by the inductive `JStatus`.  JS relational comparison of
  a string sentinel with a number yields `false` (NaN semantics), which
  `jsStatusGE` / `jsStatusLT` reproduce.
- The network is abstracted: `checkSingleUrl` is a pure function of the
  fetch outcome, and the retry wrapper takes an oracle giving the outcome
  of each numbered attempt.  Wall-clock readings (`Date.now()`) are not
  modelled; the `startTime` field is carried verbatim.
- JS numbers standing for millisecond durations and HTTP codes are `Nat`;
  the priority payload field and the percentages of the report are `ℚ`.
-/

/-- One input URL record, as produced by the parsing collaborator
(`parser.js`): `{url, lastmod, changefreq, priority, source}`.  The
checker treats every field other than `url` as opaque payload. -/
structure URLRecord where
  url : String
  lastmod : Option String
  changefreq : Option String
  priority : Option ℚ
  sourceLine : Option Nat
deriving DecidableEq

/-- The JS value stored in the `status` field of a check outcome: a numeric
HTTP status, or one of the string sentinels `TIMEOUT` / `ERROR`. -/
inductive JStatus where
  | code (n : Nat)
  | timeoutSentinel
  | errorSentinel
deriving DecidableEq

/-- JS `status >= n` where `status` may be a string sentinel: comparing a
non-numeric string with a number is `false` (it goes through NaN). -/
def jsStatusGE (s : JStatus) (n : Nat) : Bool :=
  match s with
  | .code m => n ≤ m
  | _ => false

/-- JS `status < n` where `status` may be a string sentinel: comparing a
non-numeric string with a number is `false` (it goes through NaN). -/
def jsStatusLT (s : JStatus) (n : Nat) : Bool :=
  match s with
  | .code m => m < n
  | _ => false

/-- The structured outcome returned by `checkSingleUrl` and by
`checkSingleUrlWithRetry` (also in its synthesized-fallback path).
`redirected` / `finalUrl` / `error` are absent on some paths. -/
structure CheckResult where
  status : JStatus
  statusText : String
  responseTime : Nat
  redirected : Option Bool
  finalUrl : Option String
  timeout : Bool
  error : Option String
deriving DecidableEq

/-- A thrown JS error, as inspected by the retry wrapper and by
`checkSingleUrl`: its `name`, `code` and `message` fields (an absent
field is the empty string, which is falsy like `undefined`). -/
structure JsError where
  name : String
  code : String
  message : String
deriving DecidableEq

/-- Abstraction of one `fetch` call: either a response (status, statusText,
redirected flag, final URL, elapsed time) or a thrown error (an abort
caused by the timeout timer arrives here with `name = "AbortError"`). -/
inductive FetchOutcome where
  | ok (status : Nat) (statusText : String) (redirected : Bool)
      (respUrl : String) (elapsed : Nat)
  | err (e : JsError)
deriving DecidableEq

/-- `URLChecker.checkSingleUrl` (`src/utils.js:179-237`), as a pure
function of the fetch outcome.  On a response it records status, elapsed
time, the redirect flag, and `finalUrl` when the response URL differs from
the requested one.  On `AbortError` it returns the TIMEOUT outcome with
`responseTime` equal to the configured timeout; on any other thrown error
it returns the ERROR outcome with `error = error.code || error.message`.
(The source computes the error-path `responseTime` as
`Date.now() - (Date.now() - this.timeout)`, i.e. the configured timeout.)
It never throws: every path returns a structured `CheckResult`. -/
def checkSingleUrl (timeoutMs : Nat) (urlData : URLRecord)
    (f : FetchOutcome) : CheckResult :=
  match f with
  | .ok status statusText redirected respUrl elapsed =>
    { status := .code status
      statusText := statusText
      responseTime := elapsed
      redirected := some redirected
      finalUrl := if respUrl ≠ urlData.url then some respUrl else none
      timeout := false
      error := none }
  | .err e =>
    if e.name = "AbortError" then
      { status := .timeoutSentinel
        statusText := "Timeout après " ++ toString timeoutMs ++ "ms"
        responseTime := timeoutMs
        redirected := none
        finalUrl := none
        timeout := true
        error := some "Request timeout" }
    else
      { status := .errorSentinel
        statusText := e.message
        responseTime := timeoutMs
        redirected := none
        finalUrl := none
        timeout := false
        error := some (if e.code ≠ "" then e.code else e.message) }

/-- Outcome of one invocation of the wrapped check operation as seen by
the retry wrapper `checkSingleUrlWithRetry`: the operation either returns
a structured outcome or throws.  (`checkSingleUrl` as written never
throws, so in the assembled program only the `.ret` case occurs; the
wrapper is modelled over the general oracle its own code is written
for.) -/
inductive AttemptResult where
  | ret (r : CheckResult)
  | thrown (e : JsError)
deriving DecidableEq

/-- The transient-failure test of `src/utils.js:163`:
`error.name === 'TimeoutError' || error.code === 'ECONNRESET'`. -/
def isTransient (e : JsError) : Bool :=
  e.name == "TimeoutError" || e.code == "ECONNRESET"

/-- The synthesized outcome returned when the retry wrapper stops retrying
(`src/utils.js:169-175`): always TIMEOUT-shaped — `status: 'TIMEOUT'`,
`timeout: true` — whatever kind of error was thrown. -/
def fallbackResult (timeoutMs : Nat) (e : JsError) : CheckResult :=
  { status := .timeoutSentinel
    statusText := e.message
    responseTime := timeoutMs
    redirected := none
    finalUrl := none
    timeout := true
    error := some e.message }

/-- Recursion of `URLChecker.checkSingleUrlWithRetry`
(`src/utils.js:159-177`) over the attempt-outcome oracle.  Returns the
settled outcome together with the list of sleep delays performed: the
source sleeps `1000 * attempt` ms before re-invoking itself with
`attempt + 1`, and it re-invokes only when `attempt < maxRetries` and the
thrown error is transient.  The extra `fuel` argument makes the recursion
structural; it is the remaining retry budget `maxRetries - attempt`, and
the guard `attempt < maxRetries` keeps the `fuel = 0` branch unreachable
from `checkSingleUrlWithRetry`. -/
def retryGo (maxRetries timeoutMs : Nat) (oracle : Nat → AttemptResult)
    (attempt fuel : Nat) : CheckResult × List Nat :=
  match oracle attempt with
  | .ret r => (r, [])
  | .thrown e =>
    if decide (attempt < maxRetries) && isTransient e then
      match fuel with
      | 0 => (fallbackResult timeoutMs e, [])
      | f + 1 =>
        let rest := retryGo maxRetries timeoutMs oracle (attempt + 1) f
        (rest.1, 1000 * attempt :: rest.2)
    else (fallbackResult timeoutMs e, [])

/-- `URLChecker.checkSingleUrlWithRetry` (`src/utils.js:159-177`): the
source calls it with the default `attempt = 1` and recurses with
increasing `attempt`. -/
def checkSingleUrlWithRetry (maxRetries timeoutMs : Nat)
    (oracle : Nat → AttemptResult) (attempt : Nat) : CheckResult × List Nat :=
  retryGo maxRetries timeoutMs oracle attempt (maxRetries - attempt)

/-- `URLChecker.chunkArray` (`src/utils.js:239-245`): the loop
`for (i = 0; i < length; i += chunkSize) push(slice(i, i + chunkSize))`,
written recursively with the list length as fuel (each iteration consumes
at least one element when `chunkSize ≥ 1`; for `chunkSize = 0` the JS loop
would not terminate, and the constructor maps a falsy `concurrent` option
to the default 10, so `chunkSize ≥ 1` always holds at call sites). -/
def chunkArrayGo (chunkSize : Nat) : Nat → List α → List (List α)
  | _, [] => []
  | 0, _ => []
  | fuel + 1, l => l.take chunkSize :: chunkArrayGo chunkSize fuel (l.drop chunkSize)

/-- Entry point of the chunking loop: the fuel is the array length. -/
def chunkArray (array : List α) (chunkSize : Nat) : List (List α) :=
  chunkArrayGo chunkSize array.length array

/-- Settled result of one retry-wrapped check promise, as delivered by
`Promise.allSettled`: fulfilled with a structured outcome, or rejected
with an optional reason message (`result.reason?.message`). -/
inductive SettledResult where
  | fulfilled (value : CheckResult)
  | rejected (reasonMessage : Option String)
deriving DecidableEq

/-- A bucket entry `{...urlData, ...checkResult}` (`src/utils.js:118-137`):
one flat object holding the record fields followed by the outcome fields.
The two key sets are disjoint, so no record field is overwritten by the
spread.  The synthesized rejection entry carries no
`responseTime`/`redirected`/`finalUrl`/`timeout` keys, hence those are
`Option`s here. -/
structure Entry where
  url : String
  lastmod : Option String
  changefreq : Option String
  priority : Option ℚ
  sourceLine : Option Nat
  status : JStatus
  statusText : String
  responseTime : Option Nat
  redirected : Option Bool
  finalUrl : Option String
  timeout : Option Bool
  error : Option String
deriving DecidableEq

/-- Spread-merge `{...urlData, ...checkResult}` for a fulfilled outcome. -/
def mkEntry (urlData : URLRecord) (r : CheckResult) : Entry :=
  { url := urlData.url
    lastmod := urlData.lastmod
    changefreq := urlData.changefreq
    priority := urlData.priority
    sourceLine := urlData.sourceLine
    status := r.status
    statusText := r.statusText
    responseTime := some r.responseTime
    redirected := r.redirected
    finalUrl := r.finalUrl
    timeout := some r.timeout
    error := r.error }

/-- The synthesized entry for a rejected promise (`src/utils.js:132-137`):
`{...urlData, status: 'ERROR', statusText: 'Promise rejected',
error: result.reason?.message || 'Unknown error'}` (a missing or empty
message is falsy and falls back to `'Unknown error'`). -/
def mkErrorEntry (urlData : URLRecord) (reasonMessage : Option String) : Entry :=
  { url := urlData.url
    lastmod := urlData.lastmod
    changefreq := urlData.changefreq
    priority := urlData.priority
    sourceLine := urlData.sourceLine
    status := .errorSentinel
    statusText := "Promise rejected"
    responseTime := none
    redirected := none
    finalUrl := none
    timeout := none
    error := some (match reasonMessage with
      | some m => if m ≠ "" then m else "Unknown error"
      | none => "Unknown error") }

/-- The record part of a bucket entry: the `URLRecord` fields of the
merged object. -/
def Entry.record (e : Entry) : URLRecord :=
  { url := e.url
    lastmod := e.lastmod
    changefreq := e.changefreq
    priority := e.priority
    sourceLine := e.sourceLine }

/-- The accumulating result set created at the start of `checkUrls`
(`src/utils.js:93-100`). -/
structure Results where
  working : List Entry
  errors : List Entry
  warnings : List Entry
  timeouts : List Entry
  total : Nat
  startTime : Nat
deriving DecidableEq

/-- One step of the settlement loop body (`src/utils.js:110-139`):
classify the settled result of one record and append the merged entry to
exactly one bucket.  The branch order follows the source: a fulfilled
outcome is tested for the `timeout` flag, then for a 2xx status, then for
a 3xx status, and anything else goes to `errors`; a rejected promise goes
to `errors` with a synthesized entry. -/
def pushResult (res : Results) (urlData : URLRecord) (s : SettledResult) : Results :=
  match s with
  | .fulfilled checkResult =>
    if checkResult.timeout then
      { res with timeouts := res.timeouts ++ [mkEntry urlData checkResult] }
    else if jsStatusGE checkResult.status 200 && jsStatusLT checkResult.status 300 then
      { res with working := res.working ++ [mkEntry urlData checkResult] }
    else if jsStatusGE checkResult.status 300 && jsStatusLT checkResult.status 400 then
      { res with warnings := res.warnings ++ [mkEntry urlData checkResult] }
    else
      { res with errors := res.errors ++ [mkEntry urlData checkResult] }
  | .rejected reasonMessage =>
    { res with errors := res.errors ++ [mkErrorEntry urlData reasonMessage] }

/-- `URLChecker.checkUrls` (`src/utils.js:88-157`) over an abstract
network: `outcomes` lists, index-aligned with `urls`, the settled result
that `Promise.allSettled` delivers for each record.  The records are
paired with their outcomes, chunked by `concurrent` exactly as the source
chunks `urls`, and each chunk is folded through the classifier in order;
chunks are processed strictly sequentially.  Progress glyphs, console
output and the inter-chunk sleep have no effect on the returned value and
are not modelled; `startTime` stands for the `Date.now()` reading. -/
def checkUrls (urls : List URLRecord) (outcomes : List SettledResult)
    (concurrent : Nat) (startTime : Nat) : Results :=
  let init : Results :=
    { working := [], errors := [], warnings := [], timeouts := [],
      total := urls.length, startTime := startTime }
  let chunks := chunkArray (urls.zip outcomes) concurrent
  chunks.foldl (fun res chunk =>
    chunk.foldl (fun r p => pushResult r p.1 p.2) res) init

/-- The object returned by `URLChecker.printReport` (`src/utils.js:315-320`).
The verdict in the source is
`errors.length === 0 && timeouts.length < (total * 0.1)`; the JS double
product `total * 0.1` is modelled by the exact rational `total * (1/10)`
(for every integer `total` below `2 ^ 49` the double computation compares
with integers exactly as the rational does, since the representation error
of `0.1` is below half an ulp at every decade).  For `total = 0` the JS
percentages are `NaN`; here division by zero yields 0 — no claim depends
on the percentage fields. -/
structure Report where
  success : Bool
  workingPercent : ℚ
  errorPercent : ℚ
  timeoutPercent : ℚ
deriving DecidableEq

/-- The value-level part of `URLChecker.printReport`
(`src/utils.js:251-321`): all console output dropped, only the returned
object is modelled. -/
def printReport (results : Results) : Report :=
  { success := results.errors.length == 0 &&
      decide ((results.timeouts.length : ℚ) < (results.total : ℚ) * (1 / 10))
    workingPercent := ((results.working.length : ℚ) / (results.total : ℚ)) * 100
    errorPercent := ((results.errors.length : ℚ) / (results.total : ℚ)) * 100
    timeoutPercent := ((results.timeouts.length : ℚ) / (results.total : ℚ)) * 100 }

/-- All bucket entries of a result set, concatenated. -/
def allEntries (res : Results) : List Entry :=
  res.working ++ res.warnings ++ res.errors ++ res.timeouts

/-- The bucket entries of a result set as a multiset (bucket order is
irrelevant for membership accounting). -/
def entriesMS (res : Results) : Multiset Entry :=
  (res.working : Multiset Entry) + (res.warnings : Multiset Entry) +
    (res.errors : Multiset Entry) + (res.timeouts : Multiset Entry)

/-- The entry that the settlement loop builds for one (record, settled
result) pair, whichever bucket it lands in. -/
def entryOfPair (p : URLRecord × SettledResult) : Entry :=
  match p.2 with
  | .fulfilled r => mkEntry p.1 r
  | .rejected m => mkErrorEntry p.1 m

/- Concrete objects used by witness and counterexample theorems. -/

/-- A concrete input record. -/
def sampleRecord : URLRecord :=
  { url := "https://example.com/a"
    lastmod := some "2024-01-01T00:00:00Z"
    changefreq := some "daily"
    priority := some 1
    sourceLine := some 1 }

/-- A second concrete input record. -/
def sampleRecord2 : URLRecord :=
  { url := "https://example.com/b"
    lastmod := none
    changefreq := none
    priority := none
    sourceLine := none }

/-- A third concrete input record. -/
def sampleRecord3 : URLRecord :=
  { url := "https://example.com/c"
    lastmod := none
    changefreq := some "weekly"
    priority := none
    sourceLine := some 3 }

/-- A concrete 200-OK outcome. -/
def okOutcome : CheckResult :=
  { status := .code 200
    statusText := "OK"
    responseTime := 120
    redirected := some false
    finalUrl := none
    timeout := false
    error := none }

/-- A concrete 301-redirect outcome. -/
def redirectOutcome : CheckResult :=
  { status := .code 301
    statusText := "Moved Permanently"
    responseTime := 80
    redirected := some true
    finalUrl := some "https://example.com/b2"
    timeout := false
    error := none }

/-- A concrete timed-out outcome. -/
def timedOutOutcome : CheckResult :=
  { status := .timeoutSentinel
    statusText := "Timeout après 5000ms"
    responseTime := 5000
    redirected := none
    finalUrl := none
    timeout := true
    error := some "Request timeout" }

/-- A concrete 500 outcome. -/
def serverErrorOutcome : CheckResult :=
  { status := .code 500
    statusText := "Internal Server Error"
    responseTime := 60
    redirected := some false
    finalUrl := none
    timeout := false
    error := none }

/-- An attempt oracle whose every invocation throws a timeout-class
error (`name = 'TimeoutError'`, transient). -/
def alwaysTimeoutThrow : Nat → AttemptResult :=
  fun _ => .thrown { name := "TimeoutError", code := "", message := "operation timed out" }

/-- An attempt oracle whose every invocation throws a connection-reset
transport error (`code = 'ECONNRESET'`, transient). -/
def alwaysResetThrow : Nat → AttemptResult :=
  fun _ => .thrown { name := "Error", code := "ECONNRESET", message := "socket hang up" }

/-- An attempt oracle whose every invocation throws a non-transient
error (a DNS failure). -/
def alwaysDnsThrow : Nat → AttemptResult :=
  fun _ => .thrown { name := "TypeError", code := "ENOTFOUND", message := "fetch failed" }

/-- A bucket entry used only to populate concrete result sets of given
sizes in witness theorems. -/
def dummyEntry : Entry := mkEntry sampleRecord okOutcome

/-- A completed result set with `total = 100`, 9 timeouts and no error. -/
def res100t9 : Results :=
  { working := List.replicate 91 dummyEntry
    errors := []
    warnings := []
    timeouts := List.replicate 9 dummyEntry
    total := 100
    startTime := 0 }

/-- A completed result set with `total = 100`, 10 timeouts and no error. -/
def res100t10 : Results :=
  { working := List.replicate 90 dummyEntry
    errors := []
    warnings := []
    timeouts := List.replicate 10 dummyEntry
    total := 100
    startTime := 0 }

/-- A completed result set with `total = 100`, one error and no timeout. -/
def res100e1 : Results :=
  { working := List.replicate 99 dummyEntry
    errors := [dummyEntry]
    warnings := []
    timeouts := []
    total := 100
    startTime := 0 }

/-- The result set as freshly initialized, before any settlement, for an
empty input. -/
def emptyResults : Results :=
  { working := []
    errors := []
    warnings := []
    timeouts := []
    total := 0
    startTime := 0 }

/-! ## Theorems -/

theorem chunkArrayGo_join (c : Nat) (hc : 1 ≤ c) :
    ∀ (fuel : Nat) (l : List α), l.length ≤ fuel →
      (chunkArrayGo c fuel l).flatten = l := by
  intro fuel
  induction fuel with
  | zero =>
    intro l hl
    cases l with
    | nil => rfl
    | cons a t => simp at hl
  | succ n ih =>
    intro l hl
    cases l with
    | nil => rfl
    | cons a t =>
      simp only [chunkArrayGo, List.flatten_cons]
      rw [ih ((a :: t).drop c) ?_, List.take_append_drop]
      have hdl : ((a :: t).drop c).length = (a :: t).length - c := List.length_drop c (a :: t)
      simp only [List.length_cons] at hl hdl
      omega

theorem chunkArray_join (l : List α) (c : Nat) (hc : 1 ≤ c) :
    (chunkArray l c).flatten = l :=
  chunkArrayGo_join c hc l.length l (Nat.le_refl _)

theorem chunkArrayGo_length_le (c : Nat) :
    ∀ (fuel : Nat) (l : List α), ∀ ch ∈ chunkArrayGo c fuel l, ch.length ≤ c := by
  intro fuel
  induction fuel with
  | zero =>
    intro l ch hch
    cases l with
    | nil => simp [chunkArrayGo] at hch
    | cons a t => simp [chunkArrayGo] at hch
  | succ n ih =>
    intro l ch hch
    cases l with
    | nil => simp [chunkArrayGo] at hch
    | cons a t =>
      simp only [chunkArrayGo, List.mem_cons] at hch
      rcases hch with h | h
      · subst h
        simp
      · exact ih _ ch h

theorem chunkArrayGo_length_eq (c : Nat) (hc : 1 ≤ c) :
    ∀ (fuel : Nat) (l : List α), l.length ≤ fuel →
      ∀ (i : Nat) (h : i + 1 < (chunkArrayGo c fuel l).length),
        ((chunkArrayGo c fuel l).get ⟨i, Nat.lt_of_succ_lt h⟩).length = c := by
  intro fuel
  induction fuel with
  | zero =>
    intro l hl i h
    cases l with
    | nil => simp [chunkArrayGo] at h
    | cons a t => simp at hl
  | succ n ih =>
    intro l hl i h
    cases l with
    | nil => simp [chunkArrayGo] at h
    | cons a t =>
      simp only [chunkArrayGo] at h ⊢
      cases i with
      | zero =>
        simp only [List.get]
        have hne : chunkArrayGo c n ((a :: t).drop c) ≠ [] := by
          intro hemp
          simp only [List.length_cons, hemp] at h
          simp at h
        have hlong : c < (a :: t).length := by
          by_contra hge
          push_neg at hge
          have : (a :: t).drop c = [] := List.drop_eq_nil_of_le hge
          rw [this] at hne
          cases n with
          | zero => exact hne rfl
          | succ m => exact hne rfl
        simp only [List.length_cons] at hlong
        simp [List.length_take]
        omega
      | succ j =>
        simp only [List.get]
        have hdl : ((a :: t).drop c).length ≤ n := by
          have := List.length_drop c (a :: t)
          simp only [List.length_cons] at hl this
          omega
        have hj : j + 1 < (chunkArrayGo c n ((a :: t).drop c)).length := by
          simp only [List.length_cons] at h
          omega
        exact ih ((a :: t).drop c) hdl j hj

/-- C8: chunking partitions the input into contiguous chunks: every chunk
except possibly the last has length exactly `C`, every chunk has length at
most `C`, and concatenating the chunks in order restores the input. -/
theorem chunkArray_partition (l : List α) (c : Nat) (hc : 1 ≤ c) :
    (chunkArray l c).flatten = l ∧
    (∀ (i : Nat) (h : i + 1 < (chunkArray l c).length),
      ((chunkArray l c).get ⟨i, Nat.lt_of_succ_lt h⟩).length = c) ∧
    (∀ ch ∈ chunkArray l c, ch.length ≤ c) :=
  ⟨chunkArray_join l c hc,
   fun i h => chunkArrayGo_length_eq c hc l.length l (Nat.le_refl _) i h,
   fun ch hch => chunkArrayGo_length_le c l.length l ch hch⟩

/-- Concrete instance of `chunkArray_partition` at chunk size 2 on a
five-element list. -/
theorem chunkArray_partition_witness :
    (chunkArray [10, 20, 30, 40, 50] 2).flatten = [10, 20, 30, 40, 50] ∧
    (chunkArray [10, 20, 30, 40, 50] 2).length = 3 := by
  refine ⟨(chunkArray_partition [10, 20, 30, 40, 50] 2 (by decide)).1, by decide⟩

theorem entriesMS_pushResult (res : Results) (p : URLRecord × SettledResult) :
    entriesMS (pushResult res p.1 p.2) = entriesMS res + {entryOfPair p} := by
  obtain ⟨u, s⟩ := p
  have hsplit : ∀ (l : List Entry) (e : Entry),
      ((l ++ [e] : List Entry) : Multiset Entry) = (l : Multiset Entry) + {e} := by
    intro l e
    rw [← Multiset.coe_add, Multiset.coe_singleton]
  cases s with
  | fulfilled r =>
    simp only [pushResult, entryOfPair]
    split
    · simp only [entriesMS, hsplit]
      abel
    · split
      · simp only [entriesMS, hsplit]
        abel
      · split
        · simp only [entriesMS, hsplit]
          abel
        · simp only [entriesMS, hsplit]
          abel
  | rejected m =>
    simp only [pushResult, entryOfPair, entriesMS, hsplit]
    abel

theorem pushResult_total (res : Results) (p : URLRecord × SettledResult) :
    (pushResult res p.1 p.2).total = res.total := by
  obtain ⟨u, s⟩ := p
  cases s with
  | fulfilled r =>
    simp only [pushResult]
    split
    · rfl
    · split
      · rfl
      · split
        · rfl
        · rfl
  | rejected m => rfl

theorem entriesMS_foldl (pairs : List (URLRecord × SettledResult)) (init : Results) :
    entriesMS (pairs.foldl (fun r p => pushResult r p.1 p.2) init) =
      entriesMS init + (pairs.map entryOfPair : Multiset Entry) := by
  induction pairs generalizing init with
  | nil => simp
  | cons p ps ih =>
    simp only [List.foldl_cons, List.map_cons, ih, entriesMS_pushResult]
    rw [← Multiset.cons_coe, ← Multiset.singleton_add]
    abel

theorem total_foldl (pairs : List (URLRecord × SettledResult)) (init : Results) :
    (pairs.foldl (fun r p => pushResult r p.1 p.2) init).total = init.total := by
  induction pairs generalizing init with
  | nil => rfl
  | cons p ps ih =>
    simp only [List.foldl_cons, ih, pushResult_total]

theorem checkUrls_eq_foldl (urls : List URLRecord) (outcomes : List SettledResult)
    (c st : Nat) (hc : 1 ≤ c) :
    checkUrls urls outcomes c st =
      (urls.zip outcomes).foldl (fun r p => pushResult r p.1 p.2)
        { working := [], errors := [], warnings := [], timeouts := [],
          total := urls.length, startTime := st } := by
  unfold checkUrls
  rw [← List.foldl_flatten, chunkArray_join _ _ hc]

theorem coe_allEntries (res : Results) :
    ((allEntries res : List Entry) : Multiset Entry) = entriesMS res := by
  simp only [allEntries, entriesMS, ← Multiset.coe_add]

theorem record_entryOfPair (p : URLRecord × SettledResult) :
    (entryOfPair p).record = p.1 := by
  obtain ⟨u, s⟩ := p
  cases s with
  | fulfilled r => rfl
  | rejected m => rfl


/-- C1: after `checkUrls` completes, the four bucket lengths sum to
`total` (the input length), and the records stored across the four
buckets are exactly the input records — every input record appears in
exactly one bucket, none dropped or duplicated (stated as a permutation
of the input list, which is exactly-once membership with multiplicity). -/
theorem checkUrls_partition_invariant (urls : List URLRecord)
    (outcomes : List SettledResult) (c st : Nat) (hc : 1 ≤ c)
    (hlen : outcomes.length = urls.length) :
    ((checkUrls urls outcomes c st).working.length +
        (checkUrls urls outcomes c st).warnings.length +
        (checkUrls urls outcomes c st).errors.length +
        (checkUrls urls outcomes c st).timeouts.length =
      (checkUrls urls outcomes c st).total) ∧
    ((allEntries (checkUrls urls outcomes c st)).map Entry.record).Perm urls := by
  rw [checkUrls_eq_foldl urls outcomes c st hc]
  set init : Results :=
    { working := [], errors := [], warnings := [], timeouts := [],
      total := urls.length, startTime := st } with hinit
  set pairs := urls.zip outcomes with hpairs
  have hMS : entriesMS (pairs.foldl (fun r p => pushResult r p.1 p.2) init) =
      (pairs.map entryOfPair : Multiset Entry) := by
    rw [entriesMS_foldl]
    simp [hinit, entriesMS]
  have hperm : ((allEntries (pairs.foldl (fun r p => pushResult r p.1 p.2) init)).map
      Entry.record).Perm urls := by
    have hcoe : ((allEntries (pairs.foldl (fun r p => pushResult r p.1 p.2) init) :
        List Entry) : Multiset Entry) = ((pairs.map entryOfPair : List Entry) : Multiset Entry) := by
      rw [coe_allEntries, hMS]
    have hp : (allEntries (pairs.foldl (fun r p => pushResult r p.1 p.2) init)).Perm
        (pairs.map entryOfPair) := Multiset.coe_eq_coe.mp hcoe
    have hmap := hp.map Entry.record
    have hrec : (pairs.map entryOfPair).map Entry.record = urls := by
      rw [List.map_map]
      have : (Entry.record ∘ entryOfPair) = Prod.fst := by
        funext p
        exact record_entryOfPair p
      rw [this, hpairs, List.map_fst_zip]
      omega
    rwa [hrec] at hmap
  refine ⟨?_, hperm⟩
  have hcard := congrArg Multiset.card hMS
  simp only [entriesMS, Multiset.card_add, Multiset.coe_card, List.length_map] at hcard
  have hplen : pairs.length = urls.length := by
    rw [hpairs, List.length_zip]
    omega
  have htot : (pairs.foldl (fun r p => pushResult r p.1 p.2) init).total = urls.length := by
    rw [total_foldl]
  rw [htot]
  omega

/-- Concrete instance of `checkUrls_partition_invariant`: three records,
one fulfilled 200, one rejected promise, one fulfilled timeout, chunked
two at a time. -/
theorem checkUrls_partition_invariant_witness :
    ((checkUrls [sampleRecord, sampleRecord2, sampleRecord3]
        [.fulfilled okOutcome, .rejected none, .fulfilled timedOutOutcome] 2 0).working.length +
        (checkUrls [sampleRecord, sampleRecord2, sampleRecord3]
        [.fulfilled okOutcome, .rejected none, .fulfilled timedOutOutcome] 2 0).warnings.length +
        (checkUrls [sampleRecord, sampleRecord2, sampleRecord3]
        [.fulfilled okOutcome, .rejected none, .fulfilled timedOutOutcome] 2 0).errors.length +
        (checkUrls [sampleRecord, sampleRecord2, sampleRecord3]
        [.fulfilled okOutcome, .rejected none, .fulfilled timedOutOutcome] 2 0).timeouts.length =
      (checkUrls [sampleRecord, sampleRecord2, sampleRecord3]
        [.fulfilled okOutcome, .rejected none, .fulfilled timedOutOutcome] 2 0).total) ∧
    ((allEntries (checkUrls [sampleRecord, sampleRecord2, sampleRecord3]
        [.fulfilled okOutcome, .rejected none, .fulfilled timedOutOutcome] 2 0)).map
      Entry.record).Perm [sampleRecord, sampleRecord2, sampleRecord3] :=
  checkUrls_partition_invariant [sampleRecord, sampleRecord2, sampleRecord3]
    [.fulfilled okOutcome, .rejected none, .fulfilled timedOutOutcome] 2 0
    (by decide) (by decide)

/-- C2: the classifier assigns every settled outcome deterministically to
exactly one bucket: a fulfilled outcome with the timed-out flag goes to
`timeouts`; otherwise a 2xx status to `working`; otherwise a 3xx status to
`warnings`; anything else (including the string sentinels, whose numeric
comparisons are false) to `errors`; a rejected promise yields a
synthesized entry in `errors` with status `ERROR` and the rejection
reason's message (each equation shows the entry appended to exactly one
bucket, all other buckets unchanged). -/
theorem pushResult_classification (res : Results) (u : URLRecord) :
    (∀ r : CheckResult, r.timeout = true →
      pushResult res u (.fulfilled r) =
        { res with timeouts := res.timeouts ++ [mkEntry u r] }) ∧
    (∀ (r : CheckResult) (n : Nat), r.timeout = false → r.status = .code n →
      200 ≤ n → n < 300 →
      pushResult res u (.fulfilled r) =
        { res with working := res.working ++ [mkEntry u r] }) ∧
    (∀ (r : CheckResult) (n : Nat), r.timeout = false → r.status = .code n →
      300 ≤ n → n < 400 →
      pushResult res u (.fulfilled r) =
        { res with warnings := res.warnings ++ [mkEntry u r] }) ∧
    (∀ r : CheckResult, r.timeout = false →
      (jsStatusGE r.status 200 && jsStatusLT r.status 300) = false →
      (jsStatusGE r.status 300 && jsStatusLT r.status 400) = false →
      pushResult res u (.fulfilled r) =
        { res with errors := res.errors ++ [mkEntry u r] }) ∧
    (∀ m : Option String,
      pushResult res u (.rejected m) =
        { res with errors := res.errors ++ [mkErrorEntry u m] } ∧
      (mkErrorEntry u m).status = .errorSentinel ∧
      ∀ msg : String, msg ≠ "" →
        (mkErrorEntry u (some msg)).error = some msg) := by
  refine ⟨?_, ?_, ?_, ?_, ?_⟩
  · intro r h
    simp [pushResult, h]
  · intro r n h1 h2 h3 h4
    simp [pushResult, h1, h2, jsStatusGE, jsStatusLT, h3, h4, Nat.not_lt.mpr, Nat.lt_of_lt_of_le]
  · intro r n h1 h2 h3 h4
    have hnot2 : ¬ n < 300 := by omega
    simp [pushResult, h1, h2, jsStatusGE, jsStatusLT, h3, h4, hnot2]
  · intro r h1 h2 h3
    simp [pushResult, h1, h2, h3]
  · intro m
    refine ⟨rfl, rfl, ?_⟩
    intro msg h
    simp [mkErrorEntry, h]

/-- Concrete instances of `pushResult_classification`: the four fulfilled
shapes (200, 301, timeout, 500) and a rejected promise, classified from
an empty result set. -/
theorem pushResult_classification_witness :
    pushResult emptyResults sampleRecord (.fulfilled timedOutOutcome) =
      { emptyResults with
          timeouts := emptyResults.timeouts ++ [mkEntry sampleRecord timedOutOutcome] } ∧
    pushResult emptyResults sampleRecord (.fulfilled okOutcome) =
      { emptyResults with
          working := emptyResults.working ++ [mkEntry sampleRecord okOutcome] } ∧
    pushResult emptyResults sampleRecord2 (.fulfilled redirectOutcome) =
      { emptyResults with
          warnings := emptyResults.warnings ++ [mkEntry sampleRecord2 redirectOutcome] } ∧
    pushResult emptyResults sampleRecord3 (.fulfilled serverErrorOutcome) =
      { emptyResults with
          errors := emptyResults.errors ++ [mkEntry sampleRecord3 serverErrorOutcome] } ∧
    pushResult emptyResults sampleRecord2 (.rejected (some "boom")) =
      { emptyResults with
          errors := emptyResults.errors ++ [mkErrorEntry sampleRecord2 (some "boom")] } :=
  ⟨(pushResult_classification emptyResults sampleRecord).1 timedOutOutcome rfl,
   (pushResult_classification emptyResults sampleRecord).2.1 okOutcome 200
      rfl rfl (by decide) (by decide),
   (pushResult_classification emptyResults sampleRecord2).2.2.1 redirectOutcome 301
      rfl rfl (by decide) (by decide),
   (pushResult_classification emptyResults sampleRecord3).2.2.2.1 serverErrorOutcome
      rfl (by decide) (by decide),
   ((pushResult_classification emptyResults sampleRecord2).2.2.2.2 (some "boom")).1⟩

/-- C9: the checker never mutates an input record — every bucket entry of
a completed run is the fresh merged object built by `mkEntry` or
`mkErrorEntry` from one input (record, outcome) pair, its record fields
equal to that input record; and the merge preserves every record field
(the outcome keys are disjoint from the record keys). -/
theorem checkUrls_records_unchanged (urls : List URLRecord)
    (outcomes : List SettledResult) (c st : Nat) (hc : 1 ≤ c) :
    (∀ e ∈ allEntries (checkUrls urls outcomes c st),
      ∃ p ∈ urls.zip outcomes, e = entryOfPair p ∧ e.record = p.1) ∧
    (∀ (u : URLRecord) (r : CheckResult), (mkEntry u r).record = u) ∧
    (∀ (u : URLRecord) (m : Option String), (mkErrorEntry u m).record = u) := by
  refine ⟨?_, fun u r => rfl, fun u m => rfl⟩
  intro e he
  rw [checkUrls_eq_foldl urls outcomes c st hc] at he
  set init : Results :=
    { working := [], errors := [], warnings := [], timeouts := [],
      total := urls.length, startTime := st } with hinit
  set pairs := urls.zip outcomes with hpairs
  have hMS : entriesMS (pairs.foldl (fun r p => pushResult r p.1 p.2) init) =
      (pairs.map entryOfPair : Multiset Entry) := by
    rw [entriesMS_foldl]
    simp [hinit, entriesMS]
  have hmem : e ∈ pairs.map entryOfPair := by
    have : e ∈ ((allEntries (pairs.foldl (fun r p => pushResult r p.1 p.2) init) :
        List Entry) : Multiset Entry) := Multiset.mem_coe.mpr he
    rw [coe_allEntries, hMS] at this
    exact Multiset.mem_coe.mp this
  obtain ⟨p, hp, hpe⟩ := List.mem_map.mp hmem
  exact ⟨p, hp, hpe.symm, by rw [← hpe, record_entryOfPair]⟩

/-- Concrete instance of `checkUrls_records_unchanged`: the 200-OK entry
found in the buckets of a two-record run is the fresh merge of the first
input record with its outcome, and the merge preserves the record. -/
theorem checkUrls_records_unchanged_witness :
    (∃ p ∈ [sampleRecord, sampleRecord2].zip
        [SettledResult.fulfilled okOutcome, SettledResult.rejected none],
      mkEntry sampleRecord okOutcome = entryOfPair p ∧
      (mkEntry sampleRecord okOutcome).record = p.1) ∧
    (mkEntry sampleRecord okOutcome).record = sampleRecord :=
  ⟨(checkUrls_records_unchanged [sampleRecord, sampleRecord2]
      [.fulfilled okOutcome, .rejected none] 10 0 (by decide)).1
      (mkEntry sampleRecord okOutcome) (by decide),
   (checkUrls_records_unchanged [sampleRecord, sampleRecord2]
      [.fulfilled okOutcome, .rejected none] 10 0 (by decide)).2.1
      sampleRecord okOutcome⟩

theorem retryGo_ret (M t : Nat) (o : Nat → AttemptResult) (a fuel : Nat)
    (r : CheckResult) (h : o a = .ret r) : retryGo M t o a fuel = (r, []) := by
  rw [retryGo.eq_def, h]

theorem retryGo_thrown_stop (M t : Nat) (o : Nat → AttemptResult) (a fuel : Nat)
    (e : JsError) (h : o a = .thrown e)
    (hg : (decide (a < M) && isTransient e) = false) :
    retryGo M t o a fuel = (fallbackResult t e, []) := by
  rw [retryGo.eq_def, h]
  simp only [hg, Bool.false_eq_true, if_false]

theorem retryGo_thrown_retry (M t : Nat) (o : Nat → AttemptResult) (a f : Nat)
    (e : JsError) (h : o a = .thrown e)
    (hg : (decide (a < M) && isTransient e) = true) :
    retryGo M t o a (f + 1) =
      ((retryGo M t o (a + 1) f).1, 1000 * a :: (retryGo M t o (a + 1) f).2) := by
  rw [retryGo.eq_def, h]
  simp only [hg, if_true]

theorem retryGo_thrown_fuelzero (M t : Nat) (o : Nat → AttemptResult) (a : Nat)
    (e : JsError) (h : o a = .thrown e) :
    retryGo M t o a 0 = (fallbackResult t e, []) := by
  cases hg : decide (a < M) && isTransient e with
  | false => exact retryGo_thrown_stop M t o a 0 e h hg
  | true =>
    rw [retryGo.eq_def, h]
    simp [hg]

theorem retryGo_delays_length (M t : Nat) (o : Nat → AttemptResult) :
    ∀ (fuel a : Nat), (retryGo M t o a fuel).2.length ≤ fuel := by
  intro fuel
  induction fuel with
  | zero =>
    intro a
    cases ho : o a with
    | ret r =>
      rw [retryGo_ret M t o a 0 r ho]
      simp
    | thrown e =>
      rw [retryGo_thrown_fuelzero M t o a e ho]
      simp
  | succ f ih =>
    intro a
    cases ho : o a with
    | ret r =>
      rw [retryGo_ret M t o a (f + 1) r ho]
      simp
    | thrown e =>
      cases hg : decide (a < M) && isTransient e with
      | false =>
        rw [retryGo_thrown_stop M t o a (f + 1) e ho hg]
        simp
      | true =>
        rw [retryGo_thrown_retry M t o a f e ho hg]
        simp only [List.length_cons]
        have := ih (a + 1)
        omega

theorem retryGo_delays_eq (M t : Nat) (o : Nat → AttemptResult) :
    ∀ (fuel a : Nat),
      (retryGo M t o a fuel).2 =
        (List.range (retryGo M t o a fuel).2.length).map (fun j => 1000 * (a + j)) := by
  intro fuel
  induction fuel with
  | zero =>
    intro a
    cases ho : o a with
    | ret r =>
      rw [retryGo_ret M t o a 0 r ho]
      simp
    | thrown e =>
      rw [retryGo_thrown_fuelzero M t o a e ho]
      simp
  | succ f ih =>
    intro a
    cases ho : o a with
    | ret r =>
      rw [retryGo_ret M t o a (f + 1) r ho]
      simp
    | thrown e =>
      cases hg : decide (a < M) && isTransient e with
      | false =>
        rw [retryGo_thrown_stop M t o a (f + 1) e ho hg]
        simp
      | true =>
        rw [retryGo_thrown_retry M t o a f e ho hg]
        simp only [List.length_cons, List.range_succ_eq_map, List.map_cons, List.map_map]
        congr 1
        conv_lhs => rw [ih (a + 1)]
        exact List.map_congr_left fun j hj => by
          simp only [Function.comp_apply]
          omega

theorem retryGo_delays_get (M t : Nat) (o : Nat → AttemptResult)
    (fuel a : Nat) (i : Nat) (h : i < (retryGo M t o a fuel).2.length) :
    (retryGo M t o a fuel).2.get ⟨i, h⟩ = 1000 * (a + i) := by
  rw [List.get_eq_getElem, List.getElem_of_eq (retryGo_delays_eq M t o fuel a) h]
  simp

/-- C4 (counterexample to the claim as stated): with the default
`maxRetries = 2` and a check operation that throws a transient
timeout-class error on every attempt, the wrapper performs exactly one
re-invocation (one backoff sleep), not the two additional attempts the
claim allows, because the guard is `attempt < maxRetries` with `attempt`
starting at 1. -/
theorem retry_count_counterexample :
    (checkSingleUrlWithRetry 2 5000 alwaysTimeoutThrow 1).2.length = 1 ∧
    ¬ (checkSingleUrlWithRetry 2 5000 alwaysTimeoutThrow 1).2.length = 2 := by
  decide

/-- C4 (amended): the wrapper retries only transient thrown failures, and
from attempt number `a` it performs at most `maxRetries - a` additional
attempts (so at most `maxRetries - 1` from the initial attempt 1, i.e.
one retry at the default `maxRetries = 2`); a non-transient thrown
failure settles immediately with the synthesized fallback and no retry,
and a returned outcome settles immediately unchanged.  The number of
re-invocations equals the number of backoff sleeps, the length of the
returned delay list. -/
theorem retry_bounded_and_nontransient_immediate (M t : Nat)
    (o : Nat → AttemptResult) (a : Nat) :
    (checkSingleUrlWithRetry M t o a).2.length ≤ M - a ∧
    (∀ e : JsError, o a = .thrown e → isTransient e = false →
      checkSingleUrlWithRetry M t o a = (fallbackResult t e, [])) ∧
    (∀ r : CheckResult, o a = .ret r →
      checkSingleUrlWithRetry M t o a = (r, [])) := by
  refine ⟨retryGo_delays_length M t o (M - a) a, ?_, ?_⟩
  · intro e he hnt
    exact retryGo_thrown_stop M t o a (M - a) e he (by simp [hnt])
  · intro r hr
    exact retryGo_ret M t o a (M - a) r hr

/-- Concrete instance of `retry_bounded_and_nontransient_immediate`: a
non-transient DNS failure at the first attempt settles at once, with no
backoff sleep, at the default `maxRetries = 2`. -/
theorem retry_bounded_and_nontransient_immediate_witness :
    (checkSingleUrlWithRetry 2 5000 alwaysDnsThrow 1).2.length ≤ 2 - 1 ∧
    checkSingleUrlWithRetry 2 5000 alwaysDnsThrow 1 =
      (fallbackResult 5000
        { name := "TypeError", code := "ENOTFOUND", message := "fetch failed" }, []) :=
  ⟨(retry_bounded_and_nontransient_immediate 2 5000 alwaysDnsThrow 1).1,
   (retry_bounded_and_nontransient_immediate 2 5000 alwaysDnsThrow 1).2.1
     { name := "TypeError", code := "ENOTFOUND", message := "fetch failed" }
     rfl (by decide)⟩

/-- C5 (counterexample to the claim as stated): a record whose every
attempt throws a connection-reset transport error exhausts its retries
and settles with a TIMEOUT-shaped outcome (`status: 'TIMEOUT'`,
`timeout: true`), not with the ERROR outcome the claim requires for a
transport-error last failure. -/
theorem retry_exhaustion_counterexample :
    (checkSingleUrlWithRetry 2 5000 alwaysResetThrow 1).1.status = JStatus.timeoutSentinel ∧
    (checkSingleUrlWithRetry 2 5000 alwaysResetThrow 1).1.timeout = true ∧
    ¬ (checkSingleUrlWithRetry 2 5000 alwaysResetThrow 1).1.status = JStatus.errorSentinel := by
  decide

theorem retryGo_all_thrown (M t : Nat) (o : Nat → AttemptResult)
    (h : ∀ k, ∃ e : JsError, o k = .thrown e) :
    ∀ (fuel a : Nat), ∃ e : JsError, (∃ k, o k = .thrown e) ∧
      (retryGo M t o a fuel).1 = fallbackResult t e := by
  intro fuel
  induction fuel with
  | zero =>
    intro a
    obtain ⟨e, he⟩ := h a
    exact ⟨e, ⟨a, he⟩, by rw [retryGo_thrown_fuelzero M t o a e he]⟩
  | succ f ih =>
    intro a
    obtain ⟨e, he⟩ := h a
    cases hg : decide (a < M) && isTransient e with
    | false =>
      exact ⟨e, ⟨a, he⟩, by rw [retryGo_thrown_stop M t o a (f + 1) e he hg]⟩
    | true =>
      obtain ⟨e2, hk, he2⟩ := ih (a + 1)
      exact ⟨e2, hk, by rw [retryGo_thrown_retry M t o a f e he hg]; exact he2⟩

/-- C5 (amended): when every attempt of the wrapped check operation
throws (retries exhausted or not), the wrapper never raises past its
boundary: it settles with the synthesized fallback outcome built from one
of the thrown errors — an outcome whose status is the `TIMEOUT` sentinel
and whose timed-out flag is true regardless of whether the failures were
timeouts or transport errors — so the caller always receives a structured
outcome. -/
theorem retry_always_structured_fallback (M t : Nat)
    (o : Nat → AttemptResult) (a : Nat)
    (h : ∀ k, ∃ e : JsError, o k = .thrown e) :
    ∃ e : JsError, (∃ k, o k = .thrown e) ∧
      (checkSingleUrlWithRetry M t o a).1 = fallbackResult t e ∧
      (checkSingleUrlWithRetry M t o a).1.status = JStatus.timeoutSentinel ∧
      (checkSingleUrlWithRetry M t o a).1.timeout = true := by
  obtain ⟨e, hk, hfb⟩ := retryGo_all_thrown M t o h (M - a) a
  have hfb2 : (checkSingleUrlWithRetry M t o a).1 = fallbackResult t e := hfb
  exact ⟨e, hk, hfb2, by rw [hfb2]; rfl, by rw [hfb2]; rfl⟩

/-- Concrete instance of `retry_always_structured_fallback` on the
always-resetting transport-error oracle. -/
theorem retry_always_structured_fallback_witness :
    ∃ e : JsError, (∃ k, alwaysResetThrow k = .thrown e) ∧
      (checkSingleUrlWithRetry 2 5000 alwaysResetThrow 1).1 = fallbackResult 5000 e ∧
      (checkSingleUrlWithRetry 2 5000 alwaysResetThrow 1).1.status = JStatus.timeoutSentinel ∧
      (checkSingleUrlWithRetry 2 5000 alwaysResetThrow 1).1.timeout = true :=
  retry_always_structured_fallback 2 5000 alwaysResetThrow 1
    (fun _ => ⟨{ name := "Error", code := "ECONNRESET", message := "socket hang up" }, rfl⟩)

/-- C6: the backoff is linear — the delay list recorded by the wrapper
started at attempt 1 has its `i`-th element (0-based) equal to
`(i + 1) * 1000` ms, i.e. the k-th retry waits `k * 1000` ms, and the
successive delays are strictly increasing. -/
theorem retry_backoff_linear (M t : Nat) (o : Nat → AttemptResult) :
    (∀ (i : Nat) (h : i < (checkSingleUrlWithRetry M t o 1).2.length),
      (checkSingleUrlWithRetry M t o 1).2.get ⟨i, h⟩ = 1000 * (i + 1)) ∧
    (checkSingleUrlWithRetry M t o 1).2.Pairwise (· < ·) := by
  constructor
  · intro i h
    have h2 : (checkSingleUrlWithRetry M t o 1).2.get ⟨i, h⟩ = 1000 * (1 + i) :=
      retryGo_delays_get M t o (M - 1) 1 i h
    rw [h2]
    omega
  · have hlist : (checkSingleUrlWithRetry M t o 1).2 =
        (List.range (checkSingleUrlWithRetry M t o 1).2.length).map
          (fun j => 1000 * (1 + j)) :=
      retryGo_delays_eq M t o (M - 1) 1
    rw [hlist, List.pairwise_map, List.pairwise_iff_get]
    intro i j hij
    simp only [List.get_eq_getElem, List.getElem_range]
    omega

/-- Concrete instance of `retry_backoff_linear` at `maxRetries = 3` with
an always-timing-out operation: the two recorded backoff delays are
1000 ms and then 2000 ms. -/
theorem retry_backoff_linear_witness :
    (checkSingleUrlWithRetry 3 5000 alwaysTimeoutThrow 1).2.get ⟨0, by decide⟩ =
      1000 * (0 + 1) ∧
    (checkSingleUrlWithRetry 3 5000 alwaysTimeoutThrow 1).2.get ⟨1, by decide⟩ =
      1000 * (1 + 1) :=
  ⟨(retry_backoff_linear 3 5000 alwaysTimeoutThrow).1 0 (by decide),
   (retry_backoff_linear 3 5000 alwaysTimeoutThrow).1 1 (by decide)⟩

/-- C7: a single check operation never raises past its boundary (the
embedding is a total function over every fetch outcome): on the timeout
path (an abort) it returns the structured result with status `TIMEOUT`,
timed-out flag true and `responseTime` equal to the configured timeout;
on the transport-error path it returns status `ERROR`, timed-out flag
false and `error` set to the cause, `error.code || error.message`. -/
theorem checkSingleUrl_structured_failures (t : Nat) (u : URLRecord) (e : JsError) :
    (e.name = "AbortError" →
      (checkSingleUrl t u (.err e)).status = JStatus.timeoutSentinel ∧
      (checkSingleUrl t u (.err e)).timeout = true ∧
      (checkSingleUrl t u (.err e)).responseTime = t) ∧
    (e.name ≠ "AbortError" →
      (checkSingleUrl t u (.err e)).status = JStatus.errorSentinel ∧
      (checkSingleUrl t u (.err e)).timeout = false ∧
      (checkSingleUrl t u (.err e)).error =
        some (if e.code ≠ "" then e.code else e.message)) := by
  constructor
  · intro h
    simp [checkSingleUrl, h]
  · intro h
    simp [checkSingleUrl, h]

/-- Concrete instances of `checkSingleUrl_structured_failures`: an abort
(fired timeout timer) and a connection-reset transport error. -/
theorem checkSingleUrl_structured_failures_witness :
    ((checkSingleUrl 5000 sampleRecord
        (.err { name := "AbortError", code := "", message := "This operation was aborted" })).status =
      JStatus.timeoutSentinel ∧
     (checkSingleUrl 5000 sampleRecord
        (.err { name := "AbortError", code := "", message := "This operation was aborted" })).timeout = true ∧
     (checkSingleUrl 5000 sampleRecord
        (.err { name := "AbortError", code := "", message := "This operation was aborted" })).responseTime = 5000) ∧
    ((checkSingleUrl 5000 sampleRecord
        (.err { name := "Error", code := "ECONNRESET", message := "socket hang up" })).status =
      JStatus.errorSentinel ∧
     (checkSingleUrl 5000 sampleRecord
        (.err { name := "Error", code := "ECONNRESET", message := "socket hang up" })).timeout = false ∧
     (checkSingleUrl 5000 sampleRecord
        (.err { name := "Error", code := "ECONNRESET", message := "socket hang up" })).error =
       some (if ("ECONNRESET" : String) ≠ "" then "ECONNRESET" else "socket hang up")) :=
  ⟨(checkSingleUrl_structured_failures 5000 sampleRecord
      { name := "AbortError", code := "", message := "This operation was aborted" }).1 rfl,
   (checkSingleUrl_structured_failures 5000 sampleRecord
      { name := "Error", code := "ECONNRESET", message := "socket hang up" }).2 (by decide)⟩

/-- C3: the success verdict of the report builder is true exactly when
there is no error and the timeout count is below a tenth of the total
(`errors.length === 0 && timeouts.length < total * 0.1`), and in
particular, at `total = 100`: 9 timeouts with no error succeeds, 10
timeouts with no error fails, and one error with no timeout fails. -/
theorem printReport_success_verdict :
    (∀ res : Results, (printReport res).success = true ↔
      (res.errors.length = 0 ∧ 10 * res.timeouts.length < res.total)) ∧
    (printReport res100t9).success = true ∧
    (printReport res100t10).success = false ∧
    (printReport res100e1).success = false := by
  have hq : ∀ a b : Nat, ((a : ℚ) < (b : ℚ) * (1 / 10)) ↔ 10 * a < b := by
    intro a b
    rw [mul_one_div, lt_div_iff₀ (by norm_num : (0 : ℚ) < 10)]
    norm_cast
    omega
  have hmain : ∀ res : Results, (printReport res).success = true ↔
      (res.errors.length = 0 ∧ 10 * res.timeouts.length < res.total) := by
    intro res
    simp only [printReport, Bool.and_eq_true, beq_iff_eq, decide_eq_true_eq]
    rw [hq]
  refine ⟨hmain, ?_, ?_, ?_⟩
  · exact (hmain res100t9).mpr ⟨by decide, by decide⟩
  · cases hb : (printReport res100t10).success with
    | false => rfl
    | true =>
      exfalso
      have h2 := ((hmain res100t10).mp hb).2
      simp only [res100t10, List.length_replicate] at h2
      omega
  · cases hb : (printReport res100e1).success with
    | false => rfl
    | true =>
      exfalso
      have h1 := ((hmain res100e1).mp hb).1
      simp [res100e1] at h1

/-- C10: for a result set of an empty input (`total = 0`, no errors, no
timeouts) the success verdict is false: `errors.length === 0` holds, but
the timeout condition `timeouts.length < total * 0.1` is `0 < 0`, which
fails. -/
theorem printReport_empty_input_failure (res : Results)
    (htot : res.total = 0) (herr : res.errors = []) (htim : res.timeouts = []) :
    (printReport res).success = false := by
  simp [printReport, htot, herr, htim]

/-- Concrete instance of `printReport_empty_input_failure` on the result
set produced by a run over the empty input list. -/
theorem printReport_empty_input_failure_witness :
    (printReport (checkUrls [] [] 10 0)).success = false :=
  printReport_empty_input_failure (checkUrls [] [] 10 0) rfl rfl rfl
